import Mathlib

/-!
Shallow embedding of the unit-progression state machine of the math learning
API (`src/main.py` and `src/models.py`): catalog data, per-(user, unit)
progress records, and the four operations `start_unit`, `unit_step`
(step access), `submit_test` and `submit_review`, each returning either an
API error (NotFound / Conflict / BadRequest with its detail string) or the
new record, any audit row written, and the response payload.
-/

namespace MathApi

/-- API error taxonomy: HTTPException status 404 / 409 / 400 with detail. -/
inductive ApiError where
  | notFound (detail : String)
  | conflict (detail : String)
  | badRequest (detail : String)
deriving DecidableEq

/-- One step of a unit's fixed step sequence (entry of `unit["steps"]`). -/
structure Step where
  stepId : String
  stepOrder : Nat
  stepType : String
  title : String
  contentMarkdown : String
deriving DecidableEq

/-- A unit of the content catalog (entry of the `units` dict). -/
structure CatalogUnit where
  unitId : String
  subjectCode : String
  title : String
  steps : List Step
deriving DecidableEq

/-- A question of the catalog (entry of the `questions` dict). -/
structure Question where
  questionId : String
  unitId : String
  stepType : String
  correctAnswer : String
deriving DecidableEq

/-- A review set (entry of the `review_sets` dict). -/
structure ReviewSet where
  reviewSetId : String
  unitId : String
  questionIds : List String
  requiredCorrectCount : Nat
deriving DecidableEq

/-- The read-only content catalog: the `units`, `questions` and
`review_sets` dicts of `main.py`, as association lists keyed by id. -/
structure Catalog where
  units : List (String × CatalogUnit)
  questions : List (String × Question)
  review_sets : List (String × ReviewSet)
deriving DecidableEq

/-- Dict lookup (`d.get(k)`). -/
def dictGet {α : Type} (d : List (String × α)) (k : String) : Option α :=
  (d.find? (fun p => p.1 == k)).map (fun p => p.2)

/-- `UserUnitProgress` row of `models.py`: the mutable state for one
(user, unit) pair. `completed_at` timestamps are abstracted as `Nat`. -/
structure UserUnitProgress where
  status : String
  current_step_order : Nat
  current_step_type : String
  completed_at : Option Nat
deriving DecidableEq

/-- `UnitTestAttempt` audit row (user id elided: one user in scope). -/
structure UnitTestAttempt where
  unit_id : String
  score_percent : ℚ
  is_passed : Bool
deriving DecidableEq

/-- `ReviewAttempt` audit row (user id elided: one user in scope). -/
structure ReviewAttempt where
  unit_id : String
  review_set_id : String
  correct_count : Nat
  is_cleared : Bool
deriving DecidableEq

/-- One `{questionId, answer}` item of a submit request. -/
structure TestAnswerItem where
  questionId : String
  answer : String
deriving DecidableEq

/-- Python's `str.strip()`: drop whitespace from both ends of the string. -/
def strip (s : String) : String :=
  String.mk (((s.data.dropWhile Char.isWhitespace).reverse.dropWhile
    Char.isWhitespace).reverse)

/-- Round the fraction `a / b` (with `b > 0`) to the nearest integer, ties
to even — the rounding Python's builtin `round` applies. `a.fdiv b` is the
floor of the fraction and `a - f * b` its remainder in `[0, b)`; the
remainder is compared with `b / 2` via `2 * r` against `b`. -/
def roundHalfEvenInt (a b : ℤ) : ℤ :=
  let f := a.fdiv b
  let r2 := 2 * (a - f * b)
  if r2 < b then f
  else if b < r2 then f + 1
  else if f % 2 = 0 then f else f + 1

/-- Python's `round(x, 2)`: round to 2 decimal places, ties to even.
`x * 100` is the fraction `x.num * 100 / x.den`; it is rounded to the
nearest integer and divided back by 100. -/
def pyRound2 (x : ℚ) : ℚ :=
  Rat.divInt (roundHalfEvenInt (x.num * 100) (x.den : ℤ)) 100

/-- Response of `POST /units/{id}/start`. -/
structure StartResponse where
  unitId : String
  status : String
  currentStepOrder : Nat
  currentStepType : String
deriving DecidableEq

/-- `start_unit` (`main.py:290-302`): 404 on unknown unit, else the record
is created or overwritten with `(in_progress, 1, intro)` and a cleared
`completed_at` — the prior record, if any, never affects the result. -/
def start_unit (cat : Catalog) (unit_id : String)
    (_item : Option UserUnitProgress) :
    Except ApiError (UserUnitProgress × StartResponse) :=
  match dictGet cat.units unit_id with
  | none => .error (.notFound "unit not found")
  | some _ =>
      .ok ({ status := "in_progress", current_step_order := 1,
             current_step_type := "intro", completed_at := none },
           { unitId := unit_id, status := "in_progress",
             currentStepOrder := 1, currentStepType := "intro" })

/-- Response of `GET /units/{id}/steps/{stepType}`. -/
structure StepResponse where
  unitId : String
  stepType : String
  title : String
  contentMarkdown : String
deriving DecidableEq

/-- `unit_step` (`main.py:314-334`): resolve unit (404) and step by type
(404); require a progress record (409 "unit not started"); 409 "step is
locked" when the step's order exceeds `current_step_order + 1`; advance the
record exactly when the order is `current_step_order + 1`; always return
the step content on success. -/
def unit_step (cat : Catalog) (unit_id : String) (step_type : String)
    (item : Option UserUnitProgress) :
    Except ApiError (UserUnitProgress × StepResponse) :=
  match dictGet cat.units unit_id with
  | none => .error (.notFound "unit not found")
  | some u =>
      match u.steps.find? (fun s => s.stepType == step_type) with
      | none => .error (.notFound "step not found")
      | some step =>
          match item with
          | none => .error (.conflict "unit not started")
          | some it =>
              let requested_order := step.stepOrder
              if requested_order > it.current_step_order + 1 then
                .error (.conflict "step is locked")
              else if requested_order = it.current_step_order + 1 then
                .ok ({ it with current_step_order := requested_order,
                               current_step_type := step_type },
                     { unitId := unit_id, stepType := step_type,
                       title := step.title,
                       contentMarkdown := step.contentMarkdown })
              else
                .ok (it,
                     { unitId := unit_id, stepType := step_type,
                       title := step.title,
                       contentMarkdown := step.contentMarkdown })

/-- The scoring loop of `submit_test` (`main.py:380-384`): resolve each
question (404 aborts the whole batch at the first unknown id); an answer
counts as correct when the question belongs to the unit, has catalog
stepType `test`, and the trimmed answer equals the trimmed correct answer. -/
def countTestCorrect (cat : Catalog) (unit_id : String) :
    List TestAnswerItem → Except ApiError Nat
  | [] => .ok 0
  | a :: rest =>
      match dictGet cat.questions a.questionId with
      | none => .error (.notFound "question not found")
      | some q =>
          match countTestCorrect cat unit_id rest with
          | .error e => .error e
          | .ok n =>
              .ok ((if q.unitId = unit_id ∧ q.stepType = "test" ∧
                       strip a.answer = strip q.correctAnswer
                    then 1 else 0) + n)

/-- Response of `POST /units/{id}/tests/submit`. -/
structure TestSubmitResponse where
  scorePercent : ℚ
  passThreshold : Nat
  isPassed : Bool
  nextAction : String
deriving DecidableEq

/-- `submit_test` (`main.py:365-402`): 404 on unknown unit; then, in order,
409 "unit not started" without a record, 409 when `current_step_type` is
`review`, 409 when `current_step_order < 3`, 400 on an empty answer list;
score the batch, record a `UnitTestAttempt`, and transition the record:
pass (score ≥ 80) to `(completed, 4, test)` with `completed_at = now`,
fail to `(in_progress, 3, review)` with `completed_at` cleared. -/
def submit_test (cat : Catalog) (unit_id : String)
    (answers : List TestAnswerItem) (item : Option UserUnitProgress)
    (now : Nat) :
    Except ApiError (UserUnitProgress × UnitTestAttempt × TestSubmitResponse) :=
  match dictGet cat.units unit_id with
  | none => .error (.notFound "unit not found")
  | some _ =>
      match item with
      | none => .error (.conflict "unit not started")
      | some it =>
          if it.current_step_type = "review" then
            .error (.conflict "review required before test retry")
          else if it.current_step_order < 3 then
            .error (.conflict "practice step must be completed before test")
          else if answers.length = 0 then
            .error (.badRequest "answers required")
          else
            match countTestCorrect cat unit_id answers with
            | .error e => .error e
            | .ok correct =>
                let score := pyRound2 (Rat.divInt ((correct : ℤ) * 100) (answers.length : ℤ))
                let passed := decide (80 ≤ score)
                let it2 :=
                  if passed then
                    { it with status := "completed", current_step_order := 4,
                              current_step_type := "test",
                              completed_at := some now }
                  else
                    { it with status := "in_progress", current_step_order := 3,
                              current_step_type := "review",
                              completed_at := none }
                .ok (it2,
                     { unit_id := unit_id, score_percent := score,
                       is_passed := passed },
                     { scorePercent := score, passThreshold := 80,
                       isPassed := passed,
                       nextAction := if passed then "passed" else "go_review" })

/-- The scoring loop of `submit_review` (`main.py:428-432`): resolve each
question (404 aborts the whole batch at the first unknown id); an answer
counts as correct when the question's id is one of the review set's ids
and the trimmed answer equals the trimmed correct answer. -/
def countReviewCorrect (cat : Catalog) (rs : ReviewSet) :
    List TestAnswerItem → Except ApiError Nat
  | [] => .ok 0
  | a :: rest =>
      match dictGet cat.questions a.questionId with
      | none => .error (.notFound "question not found")
      | some q =>
          match countReviewCorrect cat rs rest with
          | .error e => .error e
          | .ok n =>
              .ok ((if q.questionId ∈ rs.questionIds ∧
                       strip a.answer = strip q.correctAnswer
                    then 1 else 0) + n)

/-- Response of `POST /units/{id}/review-set/submit`. -/
structure ReviewSubmitResponse where
  correctCount : Nat
  questionCount : Nat
  requiredCorrectCount : Nat
  isCleared : Bool
  canRetryTest : Bool
deriving DecidableEq

/-- `submit_review` (`main.py:415-443`): 404 on unknown unit; 409 "unit not
started" without a record; 409 "review step is not active" unless
`current_step_type` is `review`; 404 unless the review set exists and
belongs to the unit; score the batch against the set's ids, record a
`ReviewAttempt`, and when `correct ≥ requiredCorrectCount` set
`current_step_order = 4` and `current_step_type = "test"` (status and
`completed_at` untouched), else leave the record unchanged. -/
def submit_review (cat : Catalog) (unit_id : String) (reviewSetId : String)
    (answers : List TestAnswerItem) (item : Option UserUnitProgress) :
    Except ApiError (UserUnitProgress × ReviewAttempt × ReviewSubmitResponse) :=
  match dictGet cat.units unit_id with
  | none => .error (.notFound "unit not found")
  | some _ =>
      match item with
      | none => .error (.conflict "unit not started")
      | some it =>
          if it.current_step_type ≠ "review" then
            .error (.conflict "review step is not active")
          else
            match dictGet cat.review_sets reviewSetId with
            | none => .error (.notFound "review set not found")
            | some rs =>
                if rs.unitId ≠ unit_id then
                  .error (.notFound "review set not found")
                else
                  match countReviewCorrect cat rs answers with
                  | .error e => .error e
                  | .ok correct =>
                      let cleared := decide (rs.requiredCorrectCount ≤ correct)
                      let it2 :=
                        if cleared then
                          { it with current_step_order := 4,
                                    current_step_type := "test" }
                        else it
                      .ok (it2,
                           { unit_id := unit_id,
                             review_set_id := reviewSetId,
                             correct_count := correct,
                             is_cleared := cleared },
                           { correctCount := correct,
                             questionCount := rs.questionIds.length,
                             requiredCorrectCount := rs.requiredCorrectCount,
                             isCleared := cleared,
                             canRetryTest := cleared })

/-- Does this answer count as correct for `submit_test` on this unit? The
question must resolve, belong to the unit, have catalog stepType `test`,
and the stripped answer must equal the stripped correct answer. -/
def isTestCorrect (cat : Catalog) (unit_id : String) (a : TestAnswerItem) :
    Bool :=
  match dictGet cat.questions a.questionId with
  | none => false
  | some q => decide (q.unitId = unit_id ∧ q.stepType = "test" ∧
      strip a.answer = strip q.correctAnswer)

/-- Does this answer count as correct for `submit_review` against this
review set? The question must resolve, its id must be one of the set's
ids, and the stripped answer must equal the stripped correct answer. -/
def isReviewCorrect (cat : Catalog) (rs : ReviewSet) (a : TestAnswerItem) :
    Bool :=
  match dictGet cat.questions a.questionId with
  | none => false
  | some q => decide (q.questionId ∈ rs.questionIds ∧
      strip a.answer = strip q.correctAnswer)

/-- The seeded `unit_1` of `main.py:109-123` with its fixed 4 steps. -/
def seedUnit : CatalogUnit where
  unitId := "unit_1"
  subjectCode := "1A"
  title := "数と式"
  steps :=
    [{ stepId := "st_1", stepOrder := 1, stepType := "intro",
       title := "導入", contentMarkdown := "導入" },
     { stepId := "st_2", stepOrder := 2, stepType := "example",
       title := "例題", contentMarkdown := "例題" },
     { stepId := "st_3", stepOrder := 3, stepType := "practice",
       title := "演習", contentMarkdown := "演習" },
     { stepId := "st_4", stepOrder := 4, stepType := "test",
       title := "確認テスト", contentMarkdown := "確認" }]

/-- The seeded review set `rs_1` of `main.py:134`. -/
def seedReviewSet : ReviewSet where
  reviewSetId := "rs_1"
  unitId := "unit_1"
  questionIds := ["q_r_1", "q_r_2", "q_r_3", "q_r_4", "q_r_5"]
  requiredCorrectCount := 4

/-- The seeded catalog of `main.py:109-134`: `unit_1` with its 4 steps, the
7 questions, and review set `rs_1`. -/
def seedCatalog : Catalog where
  units := [("unit_1", seedUnit)]
  questions :=
    [("q_pr_1", { questionId := "q_pr_1", unitId := "unit_1",
                  stepType := "practice", correctAnswer := "5" }),
     ("q_t_1", { questionId := "q_t_1", unitId := "unit_1",
                 stepType := "test", correctAnswer := "A" }),
     ("q_r_1", { questionId := "q_r_1", unitId := "unit_1",
                 stepType := "review", correctAnswer := "7" }),
     ("q_r_2", { questionId := "q_r_2", unitId := "unit_1",
                 stepType := "review", correctAnswer := "6" }),
     ("q_r_3", { questionId := "q_r_3", unitId := "unit_1",
                 stepType := "review", correctAnswer := "5" }),
     ("q_r_4", { questionId := "q_r_4", unitId := "unit_1",
                 stepType := "review", correctAnswer := "8" }),
     ("q_r_5", { questionId := "q_r_5", unitId := "unit_1",
                 stepType := "review", correctAnswer := "5" })]
  review_sets := [("rs_1", seedReviewSet)]

/-- One client operation against the progress state machine. -/
inductive Op where
  | start (unit_id : String)
  | accessStep (unit_id : String) (step_type : String)
  | submitTest (unit_id : String) (answers : List TestAnswerItem) (now : Nat)
  | submitReview (unit_id : String) (reviewSetId : String)
      (answers : List TestAnswerItem)
deriving DecidableEq

/-- The world visible to one (user, unit) pair: the progress record (absent
before `start`) and the append-only audit rows. -/
structure WorldState where
  progress : Option UserUnitProgress
  testAttempts : List UnitTestAttempt
  reviewAttempts : List ReviewAttempt
deriving DecidableEq

/-- Apply one operation: on success the new record (and any audit row) is
committed; an HTTPException aborts before the commit, leaving the world
unchanged. -/
def applyOp (cat : Catalog) (ws : WorldState) (op : Op) : WorldState :=
  match op with
  | .start uid =>
      match start_unit cat uid ws.progress with
      | .error _ => ws
      | .ok (p, _) => { ws with progress := some p }
  | .accessStep uid st =>
      match unit_step cat uid st ws.progress with
      | .error _ => ws
      | .ok (p, _) => { ws with progress := some p }
  | .submitTest uid ans now =>
      match submit_test cat uid ans ws.progress now with
      | .error _ => ws
      | .ok (p, att, _) =>
          { progress := some p,
            testAttempts := ws.testAttempts ++ [att],
            reviewAttempts := ws.reviewAttempts }
  | .submitReview uid rsid ans =>
      match submit_review cat uid rsid ans ws.progress with
      | .error _ => ws
      | .ok (p, att, _) =>
          { progress := some p,
            testAttempts := ws.testAttempts,
            reviewAttempts := ws.reviewAttempts ++ [att] }

/-- Run a sequence of operations from a starting world. -/
def runOps (cat : Catalog) (ws : WorldState) : List Op → WorldState
  | [] => ws
  | op :: rest => runOps cat (applyOp cat ws op) rest

/-- The empty world: nothing started, no audit rows. -/
def emptyWorld : WorldState :=
  { progress := none, testAttempts := [], reviewAttempts := [] }

/-- When every answer's question resolves, the test scoring loop succeeds
and counts exactly the answers satisfying `isTestCorrect`. -/
theorem countTestCorrect_ok (cat : Catalog) (unit_id : String)
    (answers : List TestAnswerItem)
    (h : ∀ a ∈ answers, (dictGet cat.questions a.questionId).isSome) :
    countTestCorrect cat unit_id answers
      = .ok (answers.countP (isTestCorrect cat unit_id)) := by
  induction answers with
  | nil => rfl
  | cons a rest ih =>
      have ha := h a (List.mem_cons_self a rest)
      cases hq : dictGet cat.questions a.questionId with
      | none => rw [hq] at ha; simp at ha
      | some q =>
          have hrest := ih (fun b hb => h b (List.mem_cons_of_mem a hb))
          simp only [countTestCorrect, hq, hrest, List.countP_cons,
            isTestCorrect]
          rw [Nat.add_comm]
          by_cases hP : q.unitId = unit_id ∧ q.stepType = "test" ∧
              strip a.answer = strip q.correctAnswer
          · simp [hP]
          · simp [hP]

/-- When some answer's question does not resolve, the test scoring loop
fails the whole batch with NotFound. -/
theorem countTestCorrect_missing (cat : Catalog) (unit_id : String)
    (answers : List TestAnswerItem)
    (h : ∃ a ∈ answers, dictGet cat.questions a.questionId = none) :
    countTestCorrect cat unit_id answers
      = .error (.notFound "question not found") := by
  induction answers with
  | nil => simp at h
  | cons a rest ih =>
      cases hq : dictGet cat.questions a.questionId with
      | none => simp [countTestCorrect, hq]
      | some q =>
          obtain ⟨b, hb, hbnone⟩ := h
          rcases List.mem_cons.mp hb with rfl | hbr
          · rw [hq] at hbnone; exact absurd hbnone (by simp)
          · have hrest := ih ⟨b, hbr, hbnone⟩
            simp [countTestCorrect, hq, hrest]

/-- When every answer's question resolves, the review scoring loop
succeeds and counts exactly the answers satisfying `isReviewCorrect`. -/
theorem countReviewCorrect_ok (cat : Catalog) (rs : ReviewSet)
    (answers : List TestAnswerItem)
    (h : ∀ a ∈ answers, (dictGet cat.questions a.questionId).isSome) :
    countReviewCorrect cat rs answers
      = .ok (answers.countP (isReviewCorrect cat rs)) := by
  induction answers with
  | nil => rfl
  | cons a rest ih =>
      have ha := h a (List.mem_cons_self a rest)
      cases hq : dictGet cat.questions a.questionId with
      | none => rw [hq] at ha; simp at ha
      | some q =>
          have hrest := ih (fun b hb => h b (List.mem_cons_of_mem a hb))
          simp only [countReviewCorrect, hq, hrest, List.countP_cons,
            isReviewCorrect]
          rw [Nat.add_comm]
          by_cases hP : q.questionId ∈ rs.questionIds ∧
              strip a.answer = strip q.correctAnswer
          · simp [hP]
          · simp [hP]

/-- When some answer's question does not resolve, the review scoring loop
fails the whole batch with NotFound. -/
theorem countReviewCorrect_missing (cat : Catalog) (rs : ReviewSet)
    (answers : List TestAnswerItem)
    (h : ∃ a ∈ answers, dictGet cat.questions a.questionId = none) :
    countReviewCorrect cat rs answers
      = .error (.notFound "question not found") := by
  induction answers with
  | nil => simp at h
  | cons a rest ih =>
      cases hq : dictGet cat.questions a.questionId with
      | none => simp [countReviewCorrect, hq]
      | some q =>
          obtain ⟨b, hb, hbnone⟩ := h
          rcases List.mem_cons.mp hb with rfl | hbr
          · rw [hq] at hbnone; exact absurd hbnone (by simp)
          · have hrest := ih ⟨b, hbr, hbnone⟩
            simp [countReviewCorrect, hq, hrest]

/-- Inversion for `start_unit`: every successful call returns the fixed
fresh record `(in_progress, 1, intro)` with `completed_at` cleared. -/
theorem start_unit_ok_state (cat : Catalog) (uid : String)
    (item : Option UserUnitProgress) (p : UserUnitProgress)
    (r : StartResponse) (h : start_unit cat uid item = .ok (p, r)) :
    p = ⟨"in_progress", 1, "intro", none⟩ := by
  cases hu : dictGet cat.units uid with
  | none => simp [start_unit, hu] at h
  | some u =>
      simp only [start_unit, hu, Except.ok.injEq, Prod.mk.injEq] at h
      exact h.1.symm

/-- Inversion for `unit_step`: a successful call either leaves the record
unchanged (re-read) or advances it by exactly one step order. -/
theorem unit_step_ok_state (cat : Catalog) (uid st : String)
    (it it2 : UserUnitProgress) (r : StepResponse)
    (h : unit_step cat uid st (some it) = .ok (it2, r)) :
    it2 = it
    ∨ it2 = { it with current_step_order := it.current_step_order + 1,
                      current_step_type := st } := by
  cases hu : dictGet cat.units uid with
  | none => simp [unit_step, hu] at h
  | some u =>
      cases hs : u.steps.find? (fun s => s.stepType == st) with
      | none => simp [unit_step, hu, hs] at h
      | some step =>
          simp only [unit_step, hu, hs] at h
          split at h
          · simp at h
          · split at h
            · rename_i hlt heq
              simp only [Except.ok.injEq, Prod.mk.injEq] at h
              right
              rw [← h.1, heq]
            · simp only [Except.ok.injEq, Prod.mk.injEq] at h
              exact Or.inl h.1.symm

/-- Inversion for `submit_test`: a successful call leaves the record
either completed at `(4, test)` with `completed_at = now`, or demoted to
`(in_progress, 3, review)` with `completed_at` cleared. -/
theorem submit_test_ok_state (cat : Catalog) (uid : String)
    (ans : List TestAnswerItem) (it : UserUnitProgress) (now : Nat)
    (it2 : UserUnitProgress) (att : UnitTestAttempt)
    (resp : TestSubmitResponse)
    (h : submit_test cat uid ans (some it) now = .ok (it2, att, resp)) :
    it2 = ⟨"completed", 4, "test", some now⟩
    ∨ it2 = ⟨"in_progress", 3, "review", none⟩ := by
  cases hu : dictGet cat.units uid with
  | none => simp [submit_test, hu] at h
  | some u =>
      simp only [submit_test, hu] at h
      split at h
      · simp at h
      · split at h
        · simp at h
        · split at h
          · simp at h
          · split at h
            · simp at h
            · split at h
              · simp only [Except.ok.injEq, Prod.mk.injEq] at h
                exact Or.inl h.1.symm
              · simp only [Except.ok.injEq, Prod.mk.injEq] at h
                exact Or.inr h.1.symm

/-- Inversion for `submit_review`: a successful call either leaves the
record unchanged or moves it to `(4, test)` keeping status and
`completed_at`. -/
theorem submit_review_ok_state (cat : Catalog) (uid rsid : String)
    (ans : List TestAnswerItem) (it : UserUnitProgress)
    (it2 : UserUnitProgress) (att : ReviewAttempt)
    (resp : ReviewSubmitResponse)
    (h : submit_review cat uid rsid ans (some it) = .ok (it2, att, resp)) :
    it2 = it
    ∨ it2 = { it with current_step_order := 4,
                      current_step_type := "test" } := by
  cases hu : dictGet cat.units uid with
  | none => simp [submit_review, hu] at h
  | some u =>
      simp only [submit_review, hu] at h
      split at h
      · simp at h
      · cases hrs : dictGet cat.review_sets rsid with
        | none => simp [hrs] at h
        | some rs =>
            simp only [hrs] at h
            split at h
            · simp at h
            · split at h
              · simp at h
              · split at h
                · simp only [Except.ok.injEq, Prod.mk.injEq] at h
                  exact Or.inr h.1.symm
                · simp only [Except.ok.injEq, Prod.mk.injEq] at h
                  exact Or.inl h.1.symm

/-- C5: for every started progress record and every accessStep request
whose stepType resolves to a step of the unit, an order greater than
`currentStepOrder + 1` yields Conflict ("locked") regardless of any prior
history, and an order equal to `currentStepOrder + 1` advances
`currentStepOrder` to that order and `currentStepType` to the requested
type. -/
theorem claim5_gating (cat : Catalog) (uid st : String) (u : CatalogUnit)
    (step : Step) (it : UserUnitProgress)
    (hu : dictGet cat.units uid = some u)
    (hs : u.steps.find? (fun s => s.stepType == st) = some step) :
    (it.current_step_order + 1 < step.stepOrder →
      unit_step cat uid st (some it) = .error (.conflict "step is locked"))
  ∧ (step.stepOrder = it.current_step_order + 1 →
      unit_step cat uid st (some it)
        = .ok ({ it with current_step_order := step.stepOrder,
                         current_step_type := st },
               { unitId := uid, stepType := st, title := step.title,
                 contentMarkdown := step.contentMarkdown })) := by
  constructor
  · intro hlock
    simp [unit_step, hu, hs, hlock]
  · intro heq
    have hnot : ¬ it.current_step_order + 1 < step.stepOrder := by omega
    simp [unit_step, hu, hs, hnot, heq]

/-- C5 witness: on the seeded catalog, from `currentStepOrder = 1` the
test step (order 4) is locked, and from `currentStepOrder = 3` it is a
forward progression that advances the record to `(4, test)`. -/
theorem claim5_gating_witness :
    unit_step seedCatalog "unit_1" "test"
      (some ⟨"in_progress", 1, "intro", none⟩)
      = .error (.conflict "step is locked")
  ∧ unit_step seedCatalog "unit_1" "test"
      (some ⟨"in_progress", 3, "practice", none⟩)
      = .ok (⟨"in_progress", 4, "test", none⟩,
             ⟨"unit_1", "test", "確認テスト", "確認"⟩) :=
  ⟨(claim5_gating seedCatalog "unit_1" "test" seedUnit
      ⟨"st_4", 4, "test", "確認テスト", "確認"⟩
      ⟨"in_progress", 1, "intro", none⟩ rfl rfl).1 (by decide),
   (claim5_gating seedCatalog "unit_1" "test" seedUnit
      ⟨"st_4", 4, "test", "確認テスト", "確認"⟩
      ⟨"in_progress", 3, "practice", none⟩ rfl rfl).2 rfl⟩

/-- C8: for every started progress record, accessing a step whose order is
at most `currentStepOrder` returns the step content and leaves every field
of the stored record unchanged — and leaves the whole world (progress and
audit rows) unchanged, however often it is repeated. -/
theorem claim8_reread (cat : Catalog) (uid st : String) (u : CatalogUnit)
    (step : Step) (it : UserUnitProgress) (ws : WorldState)
    (hu : dictGet cat.units uid = some u)
    (hs : u.steps.find? (fun s => s.stepType == st) = some step)
    (hle : step.stepOrder ≤ it.current_step_order)
    (hws : ws.progress = some it) :
    unit_step cat uid st (some it)
      = .ok (it, { unitId := uid, stepType := st, title := step.title,
                   contentMarkdown := step.contentMarkdown })
  ∧ applyOp cat ws (.accessStep uid st) = ws := by
  have hnotlock : ¬ step.stepOrder > it.current_step_order + 1 := by omega
  have hnoteq : ¬ step.stepOrder = it.current_step_order + 1 := by omega
  have hcall : unit_step cat uid st (some it)
      = .ok (it, { unitId := uid, stepType := st, title := step.title,
                   contentMarkdown := step.contentMarkdown }) := by
    simp [unit_step, hu, hs, hnotlock, hnoteq]
  refine ⟨hcall, ?_⟩
  obtain ⟨wp, wt, wr⟩ := ws
  simp only [WorldState.mk.injEq] at hws ⊢
  subst hws
  simp [applyOp, hcall]

/-- C8 witness: on the seeded catalog, re-reading the intro step from
`currentStepOrder = 3` returns the content and changes neither the record
nor the world. -/
theorem claim8_reread_witness :
    unit_step seedCatalog "unit_1" "intro"
      (some ⟨"in_progress", 3, "practice", none⟩)
      = .ok (⟨"in_progress", 3, "practice", none⟩,
             ⟨"unit_1", "intro", "導入", "導入"⟩)
  ∧ applyOp seedCatalog
      ⟨some ⟨"in_progress", 3, "practice", none⟩, [], []⟩
      (.accessStep "unit_1" "intro")
      = ⟨some ⟨"in_progress", 3, "practice", none⟩, [], []⟩ :=
  claim8_reread seedCatalog "unit_1" "intro" seedUnit
    ⟨"st_1", 1, "intro", "導入", "導入"⟩
    ⟨"in_progress", 3, "practice", none⟩
    ⟨some ⟨"in_progress", 3, "practice", none⟩, [], []⟩
    rfl rfl (by decide) rfl

/-- C4: `submit_test` checks its preconditions in order — no progress
record yields Conflict "unit not started"; then `currentStepType = review`
yields Conflict; then `currentStepOrder < 3` yields Conflict; then an
empty answers list yields BadRequest. -/
theorem claim4_test_preconditions (cat : Catalog) (uid : String)
    (u : CatalogUnit) (answers : List TestAnswerItem)
    (it : UserUnitProgress) (now : Nat)
    (hu : dictGet cat.units uid = some u) :
    (submit_test cat uid answers none now
      = .error (.conflict "unit not started"))
  ∧ (it.current_step_type = "review" →
      submit_test cat uid answers (some it) now
        = .error (.conflict "review required before test retry"))
  ∧ (it.current_step_type ≠ "review" → it.current_step_order < 3 →
      submit_test cat uid answers (some it) now
        = .error (.conflict "practice step must be completed before test"))
  ∧ (it.current_step_type ≠ "review" → 3 ≤ it.current_step_order →
      answers = [] →
      submit_test cat uid answers (some it) now
        = .error (.badRequest "answers required")) := by
  refine ⟨?_, ?_, ?_, ?_⟩
  · simp [submit_test, hu]
  · intro ht
    simp [submit_test, hu, ht]
  · intro ht hlt
    simp [submit_test, hu, ht, hlt]
  · intro ht hge hnil
    have hlt : ¬ it.current_step_order < 3 := by omega
    simp [submit_test, hu, ht, hlt, hnil]

/-- C4 witness: each of the four precondition failures at a concrete
input on the seeded catalog. -/
theorem claim4_test_preconditions_witness :
    submit_test seedCatalog "unit_1" [] none 0
      = .error (.conflict "unit not started")
  ∧ submit_test seedCatalog "unit_1" []
      (some ⟨"in_progress", 3, "review", none⟩) 0
      = .error (.conflict "review required before test retry")
  ∧ submit_test seedCatalog "unit_1" []
      (some ⟨"in_progress", 2, "example", none⟩) 0
      = .error (.conflict "practice step must be completed before test")
  ∧ submit_test seedCatalog "unit_1" []
      (some ⟨"in_progress", 3, "practice", none⟩) 0
      = .error (.badRequest "answers required") :=
  ⟨(claim4_test_preconditions seedCatalog "unit_1" seedUnit []
      ⟨"in_progress", 3, "review", none⟩ 0 rfl).1,
   (claim4_test_preconditions seedCatalog "unit_1" seedUnit []
      ⟨"in_progress", 3, "review", none⟩ 0 rfl).2.1 rfl,
   (claim4_test_preconditions seedCatalog "unit_1" seedUnit []
      ⟨"in_progress", 2, "example", none⟩ 0 rfl).2.2.1 (by decide) (by decide),
   (claim4_test_preconditions seedCatalog "unit_1" seedUnit []
      ⟨"in_progress", 3, "practice", none⟩ 0 rfl).2.2.2 (by decide)
      (by decide) rfl⟩

/-- C2: a `submit_test` call past its preconditions transitions the record
to `(completed, 4, test)` with `completedAt = now` and returns
`nextAction = "passed"` when the score reaches 80, and to
`(in_progress, 3, review)` with `completedAt` cleared and
`nextAction = "go_review"` otherwise; `isPassed` is exactly "score ≥ 80". -/
theorem claim2_test_transition (cat : Catalog) (uid : String)
    (u : CatalogUnit) (answers : List TestAnswerItem)
    (it : UserUnitProgress) (now : Nat) (correct : Nat)
    (hu : dictGet cat.units uid = some u)
    (ht : it.current_step_type ≠ "review")
    (ho : 3 ≤ it.current_step_order)
    (ha : answers ≠ [])
    (hc : countTestCorrect cat uid answers = .ok correct) :
    (80 ≤ pyRound2 (Rat.divInt ((correct : ℤ) * 100) (answers.length : ℤ)) →
      submit_test cat uid answers (some it) now
        = .ok (⟨"completed", 4, "test", some now⟩,
               ⟨uid, pyRound2 (Rat.divInt ((correct : ℤ) * 100)
                  (answers.length : ℤ)), true⟩,
               ⟨pyRound2 (Rat.divInt ((correct : ℤ) * 100)
                  (answers.length : ℤ)), 80, true, "passed"⟩))
  ∧ (¬ 80 ≤ pyRound2 (Rat.divInt ((correct : ℤ) * 100) (answers.length : ℤ)) →
      submit_test cat uid answers (some it) now
        = .ok (⟨"in_progress", 3, "review", none⟩,
               ⟨uid, pyRound2 (Rat.divInt ((correct : ℤ) * 100)
                  (answers.length : ℤ)), false⟩,
               ⟨pyRound2 (Rat.divInt ((correct : ℤ) * 100)
                  (answers.length : ℤ)), 80, false, "go_review"⟩)) := by
  have hlen : ¬ answers.length = 0 := by
    simpa using ha
  have hlt : ¬ it.current_step_order < 3 := by omega
  constructor
  · intro hge
    simp [submit_test, hu, ht, hlt, hlen, hc]
    simpa using hge
  · intro hng
    simp [submit_test, hu, ht, hlt, hlen, hc]
    simpa using not_le.mp hng

/-- C2 witness: on the seeded catalog, a correct single answer passes with
score 100 and completes the unit; a wrong single answer fails with score 0
and demotes the record to `(in_progress, 3, review)`. -/
theorem claim2_test_transition_witness :
    submit_test seedCatalog "unit_1" [⟨"q_t_1", "A"⟩]
      (some ⟨"in_progress", 3, "practice", none⟩) 5
      = .ok (⟨"completed", 4, "test", some 5⟩,
             ⟨"unit_1", 100, true⟩, ⟨100, 80, true, "passed"⟩)
  ∧ submit_test seedCatalog "unit_1" [⟨"q_t_1", "B"⟩]
      (some ⟨"in_progress", 3, "practice", none⟩) 5
      = .ok (⟨"in_progress", 3, "review", none⟩,
             ⟨"unit_1", 0, false⟩, ⟨0, 80, false, "go_review"⟩) := by
  have h1 := (claim2_test_transition seedCatalog "unit_1" seedUnit
    [⟨"q_t_1", "A"⟩] ⟨"in_progress", 3, "practice", none⟩ 5 1
    rfl (by decide) (by decide) (by decide) (by rfl)).1 (by decide)
  have h2 := (claim2_test_transition seedCatalog "unit_1" seedUnit
    [⟨"q_t_1", "B"⟩] ⟨"in_progress", 3, "practice", none⟩ 5 0
    rfl (by decide) (by decide) (by decide) (by rfl)).2 (by decide)
  exact ⟨h1, h2⟩

/-- C3: a `submit_review` call past its preconditions with a resolving
review set clears exactly when `correctCount ≥ requiredCorrectCount`; when
cleared the record moves to `currentStepOrder = 4`, `currentStepType =
test` with status and `completedAt` untouched (so status does not become
completed), when not cleared the record is unchanged; `canRetryTest`
always equals the cleared flag. -/
theorem claim3_review_transition (cat : Catalog) (uid rsid : String)
    (u : CatalogUnit) (rs : ReviewSet) (answers : List TestAnswerItem)
    (it : UserUnitProgress) (correct : Nat)
    (hu : dictGet cat.units uid = some u)
    (ht : it.current_step_type = "review")
    (hrs : dictGet cat.review_sets rsid = some rs)
    (hun : rs.unitId = uid)
    (hc : countReviewCorrect cat rs answers = .ok correct) :
    (rs.requiredCorrectCount ≤ correct →
      submit_review cat uid rsid answers (some it)
        = .ok ({ it with current_step_order := 4,
                         current_step_type := "test" },
               ⟨uid, rsid, correct, true⟩,
               ⟨correct, rs.questionIds.length, rs.requiredCorrectCount,
                true, true⟩))
  ∧ (¬ rs.requiredCorrectCount ≤ correct →
      submit_review cat uid rsid answers (some it)
        = .ok (it, ⟨uid, rsid, correct, false⟩,
               ⟨correct, rs.questionIds.length, rs.requiredCorrectCount,
                false, false⟩)) := by
  constructor
  · intro hcle
    simp [submit_review, hu, ht, hrs, hun, hc, hcle]
  · intro hncle
    simp [submit_review, hu, ht, hrs, hun, hc, hncle]

/-- C3 witness: on the seeded review set (threshold 4 of 5), 4 correct
answers clear review and re-arm the test at `(4, test)` without completing
the unit; 3 correct answers leave the record unchanged. -/
theorem claim3_review_transition_witness :
    submit_review seedCatalog "unit_1" "rs_1"
      [⟨"q_r_1", "7"⟩, ⟨"q_r_2", "6"⟩, ⟨"q_r_3", "5"⟩, ⟨"q_r_4", "8"⟩,
       ⟨"q_r_5", "0"⟩]
      (some ⟨"in_progress", 3, "review", none⟩)
      = .ok (⟨"in_progress", 4, "test", none⟩,
             ⟨"unit_1", "rs_1", 4, true⟩, ⟨4, 5, 4, true, true⟩)
  ∧ submit_review seedCatalog "unit_1" "rs_1"
      [⟨"q_r_1", "7"⟩, ⟨"q_r_2", "6"⟩, ⟨"q_r_3", "5"⟩, ⟨"q_r_4", "0"⟩,
       ⟨"q_r_5", "0"⟩]
      (some ⟨"in_progress", 3, "review", none⟩)
      = .ok (⟨"in_progress", 3, "review", none⟩,
             ⟨"unit_1", "rs_1", 3, false⟩, ⟨3, 5, 4, false, false⟩) := by
  have h1 := (claim3_review_transition seedCatalog "unit_1" "rs_1" seedUnit
    seedReviewSet
    [⟨"q_r_1", "7"⟩, ⟨"q_r_2", "6"⟩, ⟨"q_r_3", "5"⟩, ⟨"q_r_4", "8"⟩,
     ⟨"q_r_5", "0"⟩]
    ⟨"in_progress", 3, "review", none⟩ 4 rfl rfl rfl rfl (by rfl)).1
    (by decide)
  have h2 := (claim3_review_transition seedCatalog "unit_1" "rs_1" seedUnit
    seedReviewSet
    [⟨"q_r_1", "7"⟩, ⟨"q_r_2", "6"⟩, ⟨"q_r_3", "5"⟩, ⟨"q_r_4", "0"⟩,
     ⟨"q_r_5", "0"⟩]
    ⟨"in_progress", 3, "review", none⟩ 3 rfl rfl rfl rfl (by rfl)).2
    (by decide)
  exact ⟨h1, h2⟩

/-- C10: `submit_review` past its preconditions accepts an empty answers
list (no BadRequest, unlike `submit_test`): the correct count is 0, so
with `requiredCorrectCount ≥ 1` review is not cleared, a `ReviewAttempt`
is still recorded, and the progress record is returned unchanged. -/
theorem claim10_empty_review (cat : Catalog) (uid rsid : String)
    (u : CatalogUnit) (rs : ReviewSet) (it : UserUnitProgress)
    (hu : dictGet cat.units uid = some u)
    (ht : it.current_step_type = "review")
    (hrs : dictGet cat.review_sets rsid = some rs)
    (hun : rs.unitId = uid)
    (hreq : 1 ≤ rs.requiredCorrectCount) :
    submit_review cat uid rsid [] (some it)
      = .ok (it, ⟨uid, rsid, 0, false⟩,
             ⟨0, rs.questionIds.length, rs.requiredCorrectCount,
              false, false⟩) := by
  have h0 : ¬ rs.requiredCorrectCount ≤ 0 := by omega
  simp [submit_review, hu, ht, hrs, hun, countReviewCorrect, h0]

/-- C10 witness: an empty review submission against the seeded `rs_1`
returns `correctCount = 0`, not cleared, with the record unchanged. -/
theorem claim10_empty_review_witness :
    submit_review seedCatalog "unit_1" "rs_1" []
      (some ⟨"in_progress", 3, "review", none⟩)
      = .ok (⟨"in_progress", 3, "review", none⟩,
             ⟨"unit_1", "rs_1", 0, false⟩, ⟨0, 5, 4, false, false⟩) :=
  claim10_empty_review seedCatalog "unit_1" "rs_1" seedUnit seedReviewSet
    ⟨"in_progress", 3, "review", none⟩ rfl rfl rfl rfl (by decide)

/-- C6: past its preconditions, with every referenced question resolving,
`submit_test` succeeds (answers outside the unit/test filter are silently
ignored, not rejected), counts as correct exactly the answers whose
question belongs to the unit with catalog stepType `test` and whose
stripped answer equals the stripped correct answer case-sensitively, and
returns `score = round(correctCount / totalAnswers * 100, 2)` with
`passed` exactly when `score ≥ 80`. -/
theorem claim6_scoring (cat : Catalog) (uid : String) (u : CatalogUnit)
    (answers : List TestAnswerItem) (it : UserUnitProgress) (now : Nat)
    (hu : dictGet cat.units uid = some u)
    (ht : it.current_step_type ≠ "review")
    (ho : 3 ≤ it.current_step_order)
    (ha : answers ≠ [])
    (hq : ∀ a ∈ answers, (dictGet cat.questions a.questionId).isSome) :
    ∃ it2 att resp,
      submit_test cat uid answers (some it) now = .ok (it2, att, resp)
      ∧ resp.scorePercent
          = pyRound2 ((answers.countP (isTestCorrect cat uid) : ℚ)
              / (answers.length : ℚ) * 100)
      ∧ (resp.isPassed = true ↔ 80 ≤ resp.scorePercent) := by
  have hc := countTestCorrect_ok cat uid answers hq
  have hlen : ¬ answers.length = 0 := by simpa using ha
  have hlt : ¬ it.current_step_order < 3 := by omega
  have hform :
      pyRound2 (Rat.divInt ((answers.countP (isTestCorrect cat uid) : ℤ) * 100)
        (answers.length : ℤ))
      = pyRound2 ((answers.countP (isTestCorrect cat uid) : ℚ)
          / (answers.length : ℚ) * 100) := by
    congr 1
    rw [Rat.divInt_eq_div]
    push_cast
    ring
  by_cases hP : 80 ≤ pyRound2
      (Rat.divInt ((answers.countP (isTestCorrect cat uid) : ℤ) * 100)
        (answers.length : ℤ))
  · refine ⟨⟨"completed", 4, "test", some now⟩,
      ⟨uid, pyRound2 (Rat.divInt
        ((answers.countP (isTestCorrect cat uid) : ℤ) * 100)
        (answers.length : ℤ)), true⟩,
      ⟨pyRound2 (Rat.divInt
        ((answers.countP (isTestCorrect cat uid) : ℤ) * 100)
        (answers.length : ℤ)), 80, true, "passed"⟩, ?_, ?_, ?_⟩
    · simp [submit_test, hu, ht, hlt, hlen, hc]
      simpa using hP
    · exact hform
    · exact iff_of_true rfl hP
  · refine ⟨⟨"in_progress", 3, "review", none⟩,
      ⟨uid, pyRound2 (Rat.divInt
        ((answers.countP (isTestCorrect cat uid) : ℤ) * 100)
        (answers.length : ℤ)), false⟩,
      ⟨pyRound2 (Rat.divInt
        ((answers.countP (isTestCorrect cat uid) : ℤ) * 100)
        (answers.length : ℤ)), 80, false, "go_review"⟩, ?_, ?_, ?_⟩
    · simp [submit_test, hu, ht, hlt, hlen, hc]
      simpa using not_le.mp hP
    · exact hform
    · exact iff_of_false Bool.false_ne_true hP

/-- C6 witness: two answers, one correct test answer and one answer to a
practice question (outside the filter, silently ignored): the call
succeeds with score `round(1/2 * 100, 2) = 50` and is not passed. -/
theorem claim6_scoring_witness :
    ∃ it2 att resp,
      submit_test seedCatalog "unit_1" [⟨"q_t_1", "A"⟩, ⟨"q_pr_1", "5"⟩]
        (some ⟨"in_progress", 3, "practice", none⟩) 0 = .ok (it2, att, resp)
      ∧ resp.scorePercent
          = pyRound2 ((([⟨"q_t_1", "A"⟩, ⟨"q_pr_1", "5"⟩] :
              List TestAnswerItem).countP
                (isTestCorrect seedCatalog "unit_1") : ℚ)
              / (([⟨"q_t_1", "A"⟩, ⟨"q_pr_1", "5"⟩] :
                  List TestAnswerItem).length : ℚ) * 100)
      ∧ (resp.isPassed = true ↔ 80 ≤ resp.scorePercent) :=
  claim6_scoring seedCatalog "unit_1" seedUnit
    [⟨"q_t_1", "A"⟩, ⟨"q_pr_1", "5"⟩]
    ⟨"in_progress", 3, "practice", none⟩ 0
    rfl (by decide) (by decide) (by decide) (by decide)

/-- C7: an answer whose questionId resolves to no question makes the
whole submission fail with NotFound (no partial score) in both
`submit_test` and `submit_review`, and every error outcome of either
operation leaves the world — the progress record and both audit-row
lists — completely unchanged. -/
theorem claim7_notfound_atomic (cat : Catalog) (uid rsid : String)
    (answers : List TestAnswerItem) (it : UserUnitProgress) (now : Nat)
    (ws : WorldState) (u : CatalogUnit) (rs : ReviewSet)
    (hu : dictGet cat.units uid = some u)
    (hmiss : ∃ a ∈ answers, dictGet cat.questions a.questionId = none) :
    (it.current_step_type ≠ "review" → 3 ≤ it.current_step_order →
      answers ≠ [] →
      submit_test cat uid answers (some it) now
        = .error (.notFound "question not found"))
  ∧ (it.current_step_type = "review" →
      dictGet cat.review_sets rsid = some rs → rs.unitId = uid →
      submit_review cat uid rsid answers (some it)
        = .error (.notFound "question not found"))
  ∧ (∀ e, submit_test cat uid answers ws.progress now = .error e →
      applyOp cat ws (.submitTest uid answers now) = ws)
  ∧ (∀ e, submit_review cat uid rsid answers ws.progress = .error e →
      applyOp cat ws (.submitReview uid rsid answers) = ws) := by
  refine ⟨?_, ?_, ?_, ?_⟩
  · intro ht ho ha
    have hlen : ¬ answers.length = 0 := by simpa using ha
    have hlt : ¬ it.current_step_order < 3 := by omega
    have hcm := countTestCorrect_missing cat uid answers hmiss
    simp [submit_test, hu, ht, hlt, hlen, hcm]
  · intro ht hrs hun
    have hcm := countReviewCorrect_missing cat rs answers hmiss
    simp [submit_review, hu, ht, hrs, hun, hcm]
  · intro e he
    simp [applyOp, he]
  · intro e he
    simp [applyOp, he]

/-- C7 witness: a batch referencing the unknown id `q_zzz` fails both
operations with NotFound at a concrete world, which is left unchanged. -/
theorem claim7_notfound_atomic_witness :
    submit_test seedCatalog "unit_1" [⟨"q_zzz", "1"⟩]
      (some ⟨"in_progress", 3, "practice", none⟩) 0
      = .error (.notFound "question not found")
  ∧ submit_review seedCatalog "unit_1" "rs_1" [⟨"q_zzz", "1"⟩]
      (some ⟨"in_progress", 3, "review", none⟩)
      = .error (.notFound "question not found")
  ∧ applyOp seedCatalog ⟨some ⟨"in_progress", 3, "practice", none⟩, [], []⟩
      (.submitTest "unit_1" [⟨"q_zzz", "1"⟩] 0)
      = ⟨some ⟨"in_progress", 3, "practice", none⟩, [], []⟩
  ∧ applyOp seedCatalog ⟨some ⟨"in_progress", 3, "review", none⟩, [], []⟩
      (.submitReview "unit_1" "rs_1" [⟨"q_zzz", "1"⟩])
      = ⟨some ⟨"in_progress", 3, "review", none⟩, [], []⟩ := by
  have H1 := claim7_notfound_atomic seedCatalog "unit_1" "rs_1"
    [⟨"q_zzz", "1"⟩] ⟨"in_progress", 3, "practice", none⟩ 0
    ⟨some ⟨"in_progress", 3, "practice", none⟩, [], []⟩
    seedUnit seedReviewSet rfl (by decide)
  have H2 := claim7_notfound_atomic seedCatalog "unit_1" "rs_1"
    [⟨"q_zzz", "1"⟩] ⟨"in_progress", 3, "review", none⟩ 0
    ⟨some ⟨"in_progress", 3, "review", none⟩, [], []⟩
    seedUnit seedReviewSet rfl (by decide)
  have h1 := H1.1 (by decide) (by decide) (by decide)
  have h2 := H2.2.1 rfl rfl rfl
  exact ⟨h1, h2, H1.2.2.1 _ h1, H2.2.2.2 _ h2⟩

/-- C9: from the post-failure state `(in_progress, 3, review)`, accessing
the test step succeeds (its order 4 is `currentStepOrder + 1`) and moves
the record to `(in_progress, 4, test)`, after which `submit_test` is no
longer blocked by the review precondition — the review requirement is
escapable without ever clearing a review set. -/
theorem claim9_review_escape (c : Option Nat) (now : Nat) :
    unit_step seedCatalog "unit_1" "test"
      (some ⟨"in_progress", 3, "review", c⟩)
      = .ok (⟨"in_progress", 4, "test", c⟩,
             ⟨"unit_1", "test", "確認テスト", "確認"⟩)
  ∧ submit_test seedCatalog "unit_1" [⟨"q_t_1", "A"⟩]
      (some ⟨"in_progress", 4, "test", c⟩) now
      = .ok (⟨"completed", 4, "test", some now⟩,
             ⟨"unit_1", 100, true⟩, ⟨100, 80, true, "passed"⟩) :=
  ⟨rfl, rfl⟩

/-- C1 counterexample: `currentStepOrder` is not non-decreasing under the
claimed exception. After `[start, access example]` the order is 2, and a
further `start` resets it to 1 — a strict decrease with no failed test
involved. Moreover after failing a test, clearing review (order 4) and
failing the test again, the order drops from 4 to 3 — a failed-test
demotion that does not leave the order at 3 but strictly decreases it. -/
theorem claim1_counterexample :
    (runOps seedCatalog emptyWorld
       [.start "unit_1", .accessStep "unit_1" "example"]).progress
      = some ⟨"in_progress", 2, "example", none⟩
  ∧ (runOps seedCatalog emptyWorld
       [.start "unit_1", .accessStep "unit_1" "example",
        .start "unit_1"]).progress
      = some ⟨"in_progress", 1, "intro", none⟩
  ∧ (runOps seedCatalog emptyWorld
       [.start "unit_1", .accessStep "unit_1" "example",
        .accessStep "unit_1" "practice",
        .submitTest "unit_1" [⟨"q_t_1", "B"⟩] 0,
        .submitReview "unit_1" "rs_1"
          [⟨"q_r_1", "7"⟩, ⟨"q_r_2", "6"⟩, ⟨"q_r_3", "5"⟩, ⟨"q_r_4", "8"⟩,
           ⟨"q_r_5", "0"⟩]]).progress
      = some ⟨"in_progress", 4, "test", none⟩
  ∧ (runOps seedCatalog emptyWorld
       [.start "unit_1", .accessStep "unit_1" "example",
        .accessStep "unit_1" "practice",
        .submitTest "unit_1" [⟨"q_t_1", "B"⟩] 0,
        .submitReview "unit_1" "rs_1"
          [⟨"q_r_1", "7"⟩, ⟨"q_r_2", "6"⟩, ⟨"q_r_3", "5"⟩, ⟨"q_r_4", "8"⟩,
           ⟨"q_r_5", "0"⟩],
        .submitTest "unit_1" [⟨"q_t_1", "B"⟩] 1]).progress
      = some ⟨"in_progress", 3, "review", none⟩ :=
  ⟨rfl, rfl, rfl, rfl⟩

/-- C1 amended: across one `accessStep`, `submitTest` or `submitReview`
step, `currentStepOrder` (bounded by 4 as the data model requires) is
non-decreasing except that a failed `submitTest` demotes the record to
`currentStepOrder = 3` with `currentStepType = review` (strictly
decreasing exactly when the test was retried from order 4 after a cleared
review), and `start` always resets `currentStepOrder` to 1. -/
theorem claim1_amended (cat : Catalog) (ws : WorldState) (op : Op)
    (p p' : UserUnitProgress)
    (hp : ws.progress = some p)
    (hbound : p.current_step_order ≤ 4)
    (hp2 : (applyOp cat ws op).progress = some p') :
    p.current_step_order ≤ p'.current_step_order
    ∨ (p'.current_step_order = 3 ∧ p'.current_step_type = "review"
        ∧ ∃ uid ans now, op = .submitTest uid ans now)
    ∨ (p'.current_step_order = 1 ∧ ∃ uid, op = .start uid) := by
  rcases op with uid | ⟨uid, st⟩ | ⟨uid, ans, now⟩ | ⟨uid, rsid, ans⟩
  · simp only [applyOp] at hp2
    split at hp2
    · rw [hp] at hp2
      injection hp2 with h
      exact Or.inl (h ▸ le_rfl)
    · rename_i pr r heq
      rw [hp] at heq
      have hfix := start_unit_ok_state cat uid (some p) pr r heq
      simp at hp2
      exact Or.inr (Or.inr ⟨by rw [← hp2, hfix], uid, rfl⟩)
  · simp only [applyOp] at hp2
    split at hp2
    · rw [hp] at hp2
      injection hp2 with h
      exact Or.inl (h ▸ le_rfl)
    · rename_i pr r heq
      rw [hp] at heq
      have hcases := unit_step_ok_state cat uid st p pr r heq
      simp at hp2
      subst hp2
      rcases hcases with h | h
      · exact Or.inl (by rw [h])
      · refine Or.inl ?_
        rw [h]
        exact Nat.le_succ _
  · simp only [applyOp] at hp2
    split at hp2
    · rw [hp] at hp2
      injection hp2 with h
      exact Or.inl (h ▸ le_rfl)
    · rename_i pr att resp heq
      rw [hp] at heq
      have hcases := submit_test_ok_state cat uid ans p now pr att resp heq
      simp at hp2
      subst hp2
      rcases hcases with h | h
      · refine Or.inl ?_
        rw [h]
        exact hbound
      · exact Or.inr (Or.inl ⟨by rw [h], by rw [h], uid, ans, now, rfl⟩)
  · simp only [applyOp] at hp2
    split at hp2
    · rw [hp] at hp2
      injection hp2 with h
      exact Or.inl (h ▸ le_rfl)
    · rename_i pr att resp heq
      rw [hp] at heq
      have hcases := submit_review_ok_state cat uid rsid ans p pr att resp
        heq
      simp at hp2
      subst hp2
      rcases hcases with h | h
      · exact Or.inl (by rw [h])
      · refine Or.inl ?_
        rw [h]
        exact hbound

/-- C1 amended witness: a concrete failed retry from order 4 lands in the
failed-test exception branch of the amended invariant. -/
theorem claim1_amended_witness :
    (⟨"in_progress", 4, "test", none⟩ :
        UserUnitProgress).current_step_order
      ≤ (⟨"in_progress", 3, "review", none⟩ :
        UserUnitProgress).current_step_order
    ∨ ((⟨"in_progress", 3, "review", none⟩ :
          UserUnitProgress).current_step_order = 3
        ∧ (⟨"in_progress", 3, "review", none⟩ :
          UserUnitProgress).current_step_type = "review"
        ∧ ∃ uid ans now, (Op.submitTest "unit_1" [⟨"q_t_1", "B"⟩] 0 : Op)
            = .submitTest uid ans now)
    ∨ ((⟨"in_progress", 3, "review", none⟩ :
          UserUnitProgress).current_step_order = 1
        ∧ ∃ uid, (Op.submitTest "unit_1" [⟨"q_t_1", "B"⟩] 0 : Op)
            = .start uid) :=
  claim1_amended seedCatalog
    ⟨some ⟨"in_progress", 4, "test", none⟩, [], []⟩
    (.submitTest "unit_1" [⟨"q_t_1", "B"⟩] 0)
    ⟨"in_progress", 4, "test", none⟩ ⟨"in_progress", 3, "review", none⟩
    rfl (by decide) (by decide)

end MathApi
